import Mathlib

/-!
# Group accessor (`daemon/daos/groupdao.go`)

A shallow embedding of the group data-access object: the accessor struct with its two
lazily bound collaborator handles, the package variable `groupDao`, and the functions
`SetLogger`, `SetClient`, `Initialize`, `FindGroup`, `GetGroupDao` and `Find`.

Go pointers are `Option` values (`none` is `nil`), a dereference of `nil` is a fault, and a
function that may panic returns `Except Fault _`. The packages `logging`, `clients` and
`models` are not part of this file; what the accessor needs from them is a parameter (`Env`).
Calls into the collaborators are counted in `World`, so that "how often was the provider
consulted" and "which queries were issued" are observable.

A `uint64` group id is a `Nat`; the code does no arithmetic on it, and every statement below
holds for all naturals, hence for all values below `2 ^ 64`.
-/

namespace Daos

/-- Modelled from the spec: `models.Group` is declared outside `groupdao.go`; the spec gives it
an unsigned 64-bit `id` field and further fields it leaves unspecified, kept here as one
`payload` value. -/
structure Group where
  id : Nat
  payload : Nat
  deriving DecidableEq, Repr

/-- A run-time panic: the dereference of a nil pointer, or a panic value raised inside a
collaborator and not recovered. -/
inductive Fault where
  | nilDereference
  | raised (value : Nat)
  deriving DecidableEq, Repr

/-- The fetch operation that ends a query chain. -/
inductive Fetch where
  | First
  | Take
  | Last
  deriving DecidableEq, Repr

/-- A query as the accessor hands it to the database client: the condition text of `Where`,
its positional arguments, and the fetch operation. -/
structure Query where
  condition : String
  args : List Nat
  fetch : Fetch
  deriving DecidableEq, Repr

/-- What the chain `p.GetClient().Where(cond, args...).First(&group)` does: it panics, or it
returns, leaving `target` in the variable `group` (which was nil before the call) and giving
back a handle whose error status is `status` (`none`: no error). -/
inductive QueryOutcome where
  | panicked (value : Nat)
  | returned (target : Option Group) (status : Option Nat)
  deriving DecidableEq, Repr

/-- The collaborators of the accessor, none of them defined in `groupdao.go`:
`GetLogger n` is what `logging.GetLogger()` returns when it has been consulted `n` times
before, `GetPostgresClient n` likewise for `clients.GetPostgresClient()`, and `runQuery p q`
is the outcome of running query `q` through the client pointer `p`. -/
structure Env where
  GetLogger : Nat → Option Nat
  GetPostgresClient : Nat → Option Nat
  runQuery : Option Nat → Query → QueryOutcome

/-- The struct `GroupDao`: a context, a client pointer and a logger pointer. -/
structure GroupDao where
  Ctx : Option Nat
  pgc : Option Nat
  log : Option Nat
  deriving DecidableEq, Repr

/-- The observable history of the collaborators: how often each provider has been consulted,
and the queries issued so far, each with the client pointer it went through. -/
structure World where
  loggerCalls : Nat
  clientCalls : Nat
  queries : List (Option Nat × Query)
  deriving DecidableEq, Repr

/-- The package state: the variable `groupDao` (a pointer to the shared accessor, `none` when
nil) and the history of the collaborators. -/
structure Package where
  groupDao : Option GroupDao
  world : World
  deriving DecidableEq, Repr

/-- The package state right after `var groupDao *GroupDao`: the pointer is nil. -/
def declared (w : World) : Package :=
  { groupDao := none, world := w }

/-- Method `func (g *GroupDao) SetLogger()`: `g.log = logging.GetLogger()`. -/
def SetLogger (env : Env) (g : GroupDao) (w : World) : GroupDao × World :=
  ({ g with log := env.GetLogger w.loggerCalls }, { w with loggerCalls := w.loggerCalls + 1 })

/-- Method `func (g *GroupDao) SetClient()`: `g.pgc = clients.GetPostgresClient()`. -/
def SetClient (env : Env) (g : GroupDao) (w : World) : GroupDao × World :=
  ({ g with pgc := env.GetPostgresClient w.clientCalls },
   { w with clientCalls := w.clientCalls + 1 })

/-- Method `func (g *GroupDao) Initialize()`, for a receiver that is not nil: the logger is fetched
when `g.log == nil`, then the client when `g.pgc == nil`. -/
def Initialize (env : Env) (g : GroupDao) (w : World) : GroupDao × World :=
  let afterLog := if g.log = none then SetLogger env g w else (g, w)
  if afterLog.1.pgc = none then SetClient env afterLog.1 afterLog.2 else afterLog

/-- Method `func (g *GroupDao) FindGroup(groupId uint64) *models.Group`, for a receiver that is not
nil: `group` starts nil, the query `Where("id = ?", groupId).First(&group)` runs through
`g.pgc`, the value the chain returns is discarded, and `group` is returned. -/
def FindGroup (env : Env) (g : GroupDao) (groupId : Nat) (w : World) :
    Except Fault (Option Group) × World :=
  let q : Query := { condition := "id = ?", args := [groupId], fetch := Fetch.First }
  let w' : World := { w with queries := w.queries ++ [(g.pgc, q)] }
  match env.runQuery g.pgc q with
  | QueryOutcome.panicked v => (Except.error (Fault.raised v), w')
  | QueryOutcome.returned target _ => (Except.ok target, w')

/-- Function `func GetGroupDao() *GroupDao`: reads `groupDao.pgc` and `groupDao.log` (a nil
`groupDao` faults there), runs `Initialize` on the shared accessor when one of them is nil,
and returns the pointer `groupDao`; the result is the accessor it points to. -/
def GetGroupDao (env : Env) (s : Package) : Except Fault GroupDao × Package :=
  match s.groupDao with
  | none => (Except.error Fault.nilDereference, s)
  | some g =>
    if g.pgc = none ∨ g.log = none then
      let r := Initialize env g s.world
      (Except.ok r.1, { groupDao := some r.1, world := r.2 })
    else
      (Except.ok g, s)

/-- Function `func Find(groupId uint64) *models.Group`: `GetGroupDao().FindGroup(groupId)`. -/
def Find (env : Env) (groupId : Nat) (s : Package) : Except Fault (Option Group) × Package :=
  match GetGroupDao env s with
  | (Except.error f, s') => (Except.error f, s')
  | (Except.ok g, s') =>
    let r := FindGroup env g groupId s'.world
    (r.1, { s' with world := r.2 })

/-- The variant of `GetGroupDao` without the guard: `Initialize` runs on the shared accessor
on every call. -/
def GetGroupDaoUnguarded (env : Env) (s : Package) : Except Fault GroupDao × Package :=
  match s.groupDao with
  | none => (Except.error Fault.nilDereference, s)
  | some g =>
    let r := Initialize env g s.world
    (Except.ok r.1, { groupDao := some r.1, world := r.2 })

/-- Modelled from the spec: the backing store is a collection of group rows, and the query
`Where("id = ?", id).First` yields the first row whose `id` equals the argument. -/
def firstById (rows : List Group) (id : Nat) : Option Group :=
  rows.find? (fun r => r.id == id)

/-- Modelled from the spec: a database client that serves the rows `rows`: through a client
pointer that is not nil the id query returns the first matching row, without an error. A nil
client pointer panics, and any other query returns with an error status. -/
def storeQuery (rows : List Group) (p : Option Nat) (q : Query) : QueryOutcome :=
  match p with
  | none => QueryOutcome.panicked 0
  | some _ =>
    if q.condition = "id = ?" ∧ q.fetch = Fetch.First then
      match q.args with
      | [id] => QueryOutcome.returned (firstById rows id) none
      | _ => QueryOutcome.returned none (some 1)
    else
      QueryOutcome.returned none (some 1)

/-- Collaborators whose providers always hand out the logger `1` and the client `2`, the
client serving the rows `rows`. -/
def storeEnv (rows : List Group) : Env :=
  { GetLogger := fun _ => some 1
    GetPostgresClient := fun _ => some 2
    runQuery := storeQuery rows }

/-- The providers of `env` never return nil. -/
def ProvidersBound (env : Env) : Prop :=
  (∀ n, env.GetLogger n ≠ none) ∧ (∀ n, env.GetPostgresClient n ≠ none)

/-- Every client of `env` that is not nil answers the id query from the rows `rows`. -/
def ServesStore (env : Env) (rows : List Group) : Prop :=
  ∀ (c id : Nat), ∃ st,
    env.runQuery (some c) { condition := "id = ?", args := [id], fetch := Fetch.First }
      = QueryOutcome.returned (firstById rows id) st

/-- Collaborators whose database is unreachable: the providers hand out the logger `1` and
the client `2`, and every query returns with the error status `1`, its target left nil. -/
def downEnv : Env :=
  { GetLogger := fun _ => some 1
    GetPostgresClient := fun _ => some 2
    runQuery := fun _ _ => QueryOutcome.returned none (some 1) }

/-- Collaborators whose client provider has no client to hand out: `GetLogger` returns the
logger `1`, `GetPostgresClient` returns nil on every consultation. -/
def noClientEnv : Env :=
  { GetLogger := fun _ => some 1
    GetPostgresClient := fun _ => none
    runQuery := storeQuery [] }

/-! ## Lemmas on `Initialize` -/

theorem Initialize_of_bound (env : Env) (g : GroupDao) (w : World)
    (hl : g.log ≠ none) (hp : g.pgc ≠ none) : Initialize env g w = (g, w) := by
  simp [Initialize, hl, hp]

theorem Initialize_log (env : Env) (g : GroupDao) (w : World) :
    (Initialize env g w).1.log = if g.log = none then env.GetLogger w.loggerCalls else g.log := by
  unfold Initialize SetLogger SetClient
  by_cases hl : g.log = none <;> by_cases hp : g.pgc = none <;> simp [hl, hp]

theorem Initialize_pgc (env : Env) (g : GroupDao) (w : World) :
    (Initialize env g w).1.pgc
      = if g.pgc = none then env.GetPostgresClient w.clientCalls else g.pgc := by
  unfold Initialize SetLogger SetClient
  by_cases hl : g.log = none <;> by_cases hp : g.pgc = none <;> simp [hl, hp]

theorem Initialize_Ctx (env : Env) (g : GroupDao) (w : World) :
    (Initialize env g w).1.Ctx = g.Ctx := by
  unfold Initialize SetLogger SetClient
  by_cases hl : g.log = none <;> by_cases hp : g.pgc = none <;> simp [hl, hp]

theorem Initialize_loggerCalls (env : Env) (g : GroupDao) (w : World) :
    (Initialize env g w).2.loggerCalls = w.loggerCalls + (if g.log = none then 1 else 0) := by
  unfold Initialize SetLogger SetClient
  by_cases hl : g.log = none <;> by_cases hp : g.pgc = none <;> simp [hl, hp]

theorem Initialize_clientCalls (env : Env) (g : GroupDao) (w : World) :
    (Initialize env g w).2.clientCalls = w.clientCalls + (if g.pgc = none then 1 else 0) := by
  unfold Initialize SetLogger SetClient
  by_cases hl : g.log = none <;> by_cases hp : g.pgc = none <;> simp [hl, hp]

theorem Initialize_queries (env : Env) (g : GroupDao) (w : World) :
    (Initialize env g w).2.queries = w.queries := by
  unfold Initialize SetLogger SetClient
  by_cases hl : g.log = none <;> by_cases hp : g.pgc = none <;> simp [hl, hp]

theorem Initialize_bound (env : Env) (g : GroupDao) (w : World) (h : ProvidersBound env) :
    (Initialize env g w).1.log ≠ none ∧ (Initialize env g w).1.pgc ≠ none := by
  rw [Initialize_log, Initialize_pgc]
  constructor
  · by_cases hl : g.log = none
    · simpa [hl] using h.1 w.loggerCalls
    · simp [hl]
  · by_cases hp : g.pgc = none
    · simpa [hp] using h.2 w.clientCalls
    · simp [hp]

/-! ## Lemmas on `GetGroupDao`, `FindGroup` and `Find` -/

theorem GetGroupDao_of_unbound (env : Env) (s : Package) (g : GroupDao)
    (hg : s.groupDao = some g) (hu : g.pgc = none ∨ g.log = none) :
    GetGroupDao env s
      = (Except.ok (Initialize env g s.world).1,
         { groupDao := some (Initialize env g s.world).1,
           world := (Initialize env g s.world).2 }) := by
  simp [GetGroupDao, hg, hu]

theorem GetGroupDao_of_bound (env : Env) (s : Package) (g : GroupDao)
    (hg : s.groupDao = some g) (hb : ¬ (g.pgc = none ∨ g.log = none)) :
    GetGroupDao env s = (Except.ok g, s) := by
  simp [GetGroupDao, hg, hb]

theorem Find_of_GetGroupDao_ok (env : Env) (s s' : Package) (g : GroupDao) (id : Nat)
    (h : GetGroupDao env s = (Except.ok g, s')) :
    Find env id s
      = ((FindGroup env g id s'.world).1, { s' with world := (FindGroup env g id s'.world).2 }) := by
  simp [Find, h]

theorem FindGroup_of_returned (env : Env) (g : GroupDao) (id : Nat) (w : World)
    (t : Option Group) (st : Option Nat)
    (h : env.runQuery g.pgc { condition := "id = ?", args := [id], fetch := Fetch.First }
      = QueryOutcome.returned t st) :
    (FindGroup env g id w).1 = Except.ok t := by
  simp [FindGroup, h]

theorem FindGroup_of_panicked (env : Env) (g : GroupDao) (id : Nat) (w : World) (v : Nat)
    (h : env.runQuery g.pgc { condition := "id = ?", args := [id], fetch := Fetch.First }
      = QueryOutcome.panicked v) :
    (FindGroup env g id w).1 = Except.error (Fault.raised v) := by
  simp [FindGroup, h]

theorem FindGroup_world (env : Env) (g : GroupDao) (id : Nat) (w : World) :
    (FindGroup env g id w).2
      = { w with queries := w.queries
            ++ [(g.pgc, { condition := "id = ?", args := [id], fetch := Fetch.First })] } := by
  unfold FindGroup
  dsimp only
  split <;> rfl

/-- With an existing shared accessor, providers that never return nil and clients that serve
the rows `rows`, `Find id` returns what the id query finds in `rows`. -/
theorem Find_of_existing_accessor (env : Env) (rows : List Group) (s : Package) (g : GroupDao)
    (id : Nat) (hg : s.groupDao = some g) (hp : ProvidersBound env)
    (hs : ServesStore env rows) :
    (Find env id s).1 = Except.ok (firstById rows id) := by
  by_cases hu : g.pgc = none ∨ g.log = none
  · rw [Find_of_GetGroupDao_ok env s _ _ id (GetGroupDao_of_unbound env s g hg hu)]
    have hb := (Initialize_bound env g s.world hp).2
    obtain ⟨c, hc⟩ := Option.ne_none_iff_exists'.mp hb
    obtain ⟨st, hst⟩ := hs c id
    exact FindGroup_of_returned env _ id _ _ st (by rw [hc]; exact hst)
  · rw [Find_of_GetGroupDao_ok env s _ _ id (GetGroupDao_of_bound env s g hg hu)]
    have hb : g.pgc ≠ none := fun h => hu (Or.inl h)
    obtain ⟨c, hc⟩ := Option.ne_none_iff_exists'.mp hb
    obtain ⟨st, hst⟩ := hs c id
    exact FindGroup_of_returned env _ id _ _ st (by rw [hc]; exact hst)

/-- With an existing shared accessor (and providers and clients as above), `Find id` returns a
present group whose `id` is `id` when some row of the store has that id. -/
theorem Find_of_existing_accessor_present (env : Env) (rows : List Group) (s : Package)
    (g : GroupDao) (id : Nat) (hg : s.groupDao = some g) (hp : ProvidersBound env)
    (hs : ServesStore env rows) (hrow : ∃ r ∈ rows, r.id = id) :
    ∃ r, (Find env id s).1 = Except.ok (some r) ∧ r.id = id := by
  rw [Find_of_existing_accessor env rows s g id hg hp hs]
  obtain ⟨r0, hr0, hid⟩ := hrow
  cases hf : firstById rows id with
  | none =>
    have := List.find?_eq_none.mp hf r0 hr0
    simp [hid] at this
  | some r =>
    refine ⟨r, rfl, ?_⟩
    have := List.find?_some hf
    simpa using this

/-- With an existing shared accessor (and providers and clients as above), `Find id` returns
nil, and no fault, when no row of the store has that id. -/
theorem Find_of_existing_accessor_absent (env : Env) (rows : List Group) (s : Package)
    (g : GroupDao) (id : Nat) (hg : s.groupDao = some g) (hp : ProvidersBound env)
    (hs : ServesStore env rows) (hrow : ∀ r ∈ rows, r.id ≠ id) :
    (Find env id s).1 = Except.ok none := by
  rw [Find_of_existing_accessor env rows s g id hg hp hs]
  have : firstById rows id = none := by
    unfold firstById
    rw [List.find?_eq_none]
    intro r hr
    simpa using hrow r hr
  rw [this]

/-! ## The lookup through `Find` -/

/-- C1, evaluated at the package state as declared: the store holds the row with id `1`, and
`Find 1` ends in a nil dereference instead of returning that row; the shared accessor stays
nil and no query is issued. -/
theorem Find_present_row_faults_when_declared :
    firstById [⟨1, 7⟩] 1 = some ⟨1, 7⟩ ∧
    Find (storeEnv [⟨1, 7⟩]) 1 (declared ⟨0, 0, []⟩)
      = (Except.error Fault.nilDereference, declared ⟨0, 0, []⟩) :=
  ⟨rfl, rfl⟩

/-- C2, evaluated at the package state as declared: no row of the store has id `2`, and
`Find 2` ends in a nil dereference instead of returning nil without a fault. -/
theorem Find_absent_row_faults_when_declared :
    firstById [⟨1, 7⟩] 2 = none ∧
    Find (storeEnv [⟨1, 7⟩]) 2 (declared ⟨0, 0, []⟩)
      = (Except.error Fault.nilDereference, declared ⟨0, 0, []⟩) :=
  ⟨rfl, rfl⟩

/-- C3 as stated fails: it is not the case that a lookup whose query reports an error is
always told apart, by what `FindGroup` gives back, from a lookup whose query reports none.
With an unreachable database and with an empty store `FindGroup 1` gives back the same. -/
theorem FindGroup_fault_not_distinguishable :
    ¬ (∀ (env₁ env₂ : Env) (g : GroupDao) (id : Nat) (w : World) (t₁ t₂ : Option Group)
        (e : Nat),
        env₁.runQuery g.pgc { condition := "id = ?", args := [id], fetch := Fetch.First }
          = QueryOutcome.returned t₁ (some e) →
        env₂.runQuery g.pgc { condition := "id = ?", args := [id], fetch := Fetch.First }
          = QueryOutcome.returned t₂ none →
        FindGroup env₁ g id w ≠ FindGroup env₂ g id w) := by
  intro h
  exact h downEnv (storeEnv []) ⟨none, some 2, some 1⟩ 1 ⟨0, 0, []⟩ none none 1 rfl rfl rfl

/-- C3, amended: a panic raised by the query reaches the caller of `FindGroup` as that same
panic; an error status that the query hands back in its returned value is discarded, and
`FindGroup` returns just the group the query left in the target, whatever the status. -/
theorem FindGroup_forwards_panic_discards_status (env : Env) (g : GroupDao) (id : Nat)
    (w : World) :
    (∀ v, env.runQuery g.pgc { condition := "id = ?", args := [id], fetch := Fetch.First }
        = QueryOutcome.panicked v →
      (FindGroup env g id w).1 = Except.error (Fault.raised v)) ∧
    (∀ t st, env.runQuery g.pgc { condition := "id = ?", args := [id], fetch := Fetch.First }
        = QueryOutcome.returned t st →
      (FindGroup env g id w).1 = Except.ok t) :=
  ⟨fun v h => FindGroup_of_panicked env g id w v h,
   fun t st h => FindGroup_of_returned env g id w t st h⟩

theorem FindGroup_forwards_panic_discards_status_witness :
    (FindGroup (storeEnv []) ⟨none, none, some 1⟩ 1 ⟨0, 0, []⟩).1
      = Except.error (Fault.raised 0) ∧
    (FindGroup downEnv ⟨none, some 2, some 1⟩ 1 ⟨0, 0, []⟩).1 = Except.ok none :=
  ⟨(FindGroup_forwards_panic_discards_status (storeEnv []) ⟨none, none, some 1⟩ 1
      ⟨0, 0, []⟩).1 0 rfl,
   (FindGroup_forwards_panic_discards_status downEnv ⟨none, some 2, some 1⟩ 1
      ⟨0, 0, []⟩).2 none (some 1) rfl⟩

/-- C4, evaluated at the package state as declared: for every id and whatever the
collaborators are, the first call of `Find` ends in a nil dereference, and afterwards the
shared accessor is still nil and no provider has been consulted. -/
theorem Find_faults_when_declared (env : Env) (id : Nat) (w : World) :
    Find env id (declared w) = (Except.error Fault.nilDereference, declared w) :=
  rfl

/-! ## `Initialize` -/

/-- C5: with providers that never return nil, running `Initialize` a second time gives
exactly the accessor (and the provider counts) of the first run. -/
theorem Initialize_idempotent (env : Env) (g : GroupDao) (w : World)
    (h : ProvidersBound env) :
    Initialize env (Initialize env g w).1 (Initialize env g w).2 = Initialize env g w :=
  Initialize_of_bound env _ _ (Initialize_bound env g w h).1 (Initialize_bound env g w h).2

theorem Initialize_idempotent_witness :
    ProvidersBound (storeEnv []) ∧
    Initialize (storeEnv []) (Initialize (storeEnv []) ⟨none, none, none⟩ ⟨0, 0, []⟩).1
        (Initialize (storeEnv []) ⟨none, none, none⟩ ⟨0, 0, []⟩).2
      = (⟨none, some 2, some 1⟩, ⟨1, 1, []⟩) :=
  ⟨⟨fun _ => by simp [storeEnv], fun _ => by simp [storeEnv]⟩,
   Initialize_idempotent (storeEnv []) ⟨none, none, none⟩ ⟨0, 0, []⟩
     ⟨fun _ => by simp [storeEnv], fun _ => by simp [storeEnv]⟩⟩

/-- C6: after `Initialize` the client and the logger are bound when the providers never
return nil. Whatever the providers return, each of them is consulted at most once during the
call; a provider whose handle was nil on entry is consulted exactly once, and the handle on
exit is what that consultation returned. -/
theorem Initialize_binds_and_consults_once (env : Env) (g : GroupDao) (w : World) :
    (ProvidersBound env →
      (Initialize env g w).1.pgc ≠ none ∧ (Initialize env g w).1.log ≠ none) ∧
    ((Initialize env g w).2.loggerCalls ≤ w.loggerCalls + 1 ∧
      (g.log = none →
        (Initialize env g w).2.loggerCalls = w.loggerCalls + 1 ∧
        (Initialize env g w).1.log = env.GetLogger w.loggerCalls)) ∧
    ((Initialize env g w).2.clientCalls ≤ w.clientCalls + 1 ∧
      (g.pgc = none →
        (Initialize env g w).2.clientCalls = w.clientCalls + 1 ∧
        (Initialize env g w).1.pgc = env.GetPostgresClient w.clientCalls)) := by
  refine ⟨fun h => ⟨(Initialize_bound env g w h).2, (Initialize_bound env g w h).1⟩,
    ⟨?_, ?_⟩, ?_, ?_⟩
  · rw [Initialize_loggerCalls]; split <;> omega
  · intro hl
    rw [Initialize_loggerCalls, Initialize_log, if_pos hl, if_pos hl]
    exact ⟨rfl, rfl⟩
  · rw [Initialize_clientCalls]; split <;> omega
  · intro hp
    rw [Initialize_clientCalls, Initialize_pgc, if_pos hp, if_pos hp]
    exact ⟨rfl, rfl⟩

theorem Initialize_binds_and_consults_once_witness :
    ProvidersBound (storeEnv []) ∧
    ((Initialize (storeEnv []) ⟨none, none, some 5⟩ ⟨3, 4, []⟩).1.pgc ≠ none ∧
      (Initialize (storeEnv []) ⟨none, none, some 5⟩ ⟨3, 4, []⟩).1.log ≠ none) ∧
    ((Initialize (storeEnv []) ⟨none, none, some 5⟩ ⟨3, 4, []⟩).2.clientCalls = 4 + 1 ∧
      (Initialize (storeEnv []) ⟨none, none, some 5⟩ ⟨3, 4, []⟩).1.pgc = some 2) ∧
    ((Initialize noClientEnv ⟨none, some 6, none⟩ ⟨3, 4, []⟩).2.loggerCalls = 3 + 1 ∧
      (Initialize noClientEnv ⟨none, some 6, none⟩ ⟨3, 4, []⟩).1.log = some 1) :=
  ⟨⟨fun _ => by simp [storeEnv], fun _ => by simp [storeEnv]⟩,
   (Initialize_binds_and_consults_once (storeEnv []) ⟨none, none, some 5⟩ ⟨3, 4, []⟩).1
     ⟨fun _ => by simp [storeEnv], fun _ => by simp [storeEnv]⟩,
   (Initialize_binds_and_consults_once (storeEnv []) ⟨none, none, some 5⟩ ⟨3, 4, []⟩).2.2.2 rfl,
   (Initialize_binds_and_consults_once noClientEnv ⟨none, some 6, none⟩ ⟨3, 4, []⟩).2.1.2 rfl⟩

/-- C9: `Initialize` binds the two handles independently: a logger bound on entry is the
same logger on exit and the logger provider is not consulted, a client bound on entry is the
same client on exit and the client provider is not consulted, each whatever the state of the
other handle, and `Ctx` is unchanged. -/
theorem Initialize_keeps_bound_handles (env : Env) (g : GroupDao) (w : World) :
    (g.log ≠ none →
      (Initialize env g w).1.log = g.log ∧ (Initialize env g w).2.loggerCalls = w.loggerCalls) ∧
    (g.pgc ≠ none →
      (Initialize env g w).1.pgc = g.pgc ∧ (Initialize env g w).2.clientCalls = w.clientCalls) ∧
    (Initialize env g w).1.Ctx = g.Ctx := by
  refine ⟨fun hl => ?_, fun hp => ?_, Initialize_Ctx env g w⟩
  · rw [Initialize_log, Initialize_loggerCalls, if_neg hl, if_neg hl]
    exact ⟨rfl, rfl⟩
  · rw [Initialize_pgc, Initialize_clientCalls, if_neg hp, if_neg hp]
    exact ⟨rfl, rfl⟩

theorem Initialize_keeps_bound_handles_witness :
    ((Initialize (storeEnv []) ⟨some 9, none, some 5⟩ ⟨3, 4, []⟩).1.log = some 5 ∧
      (Initialize (storeEnv []) ⟨some 9, none, some 5⟩ ⟨3, 4, []⟩).2.loggerCalls = 3) ∧
    (Initialize (storeEnv []) ⟨some 9, none, some 5⟩ ⟨3, 4, []⟩).1.pgc = some 2 ∧
    ((Initialize (storeEnv []) ⟨some 9, some 6, none⟩ ⟨3, 4, []⟩).1.pgc = some 6 ∧
      (Initialize (storeEnv []) ⟨some 9, some 6, none⟩ ⟨3, 4, []⟩).2.clientCalls = 4) ∧
    (Initialize (storeEnv []) ⟨some 9, some 6, none⟩ ⟨3, 4, []⟩).1.log = some 1 :=
  ⟨(Initialize_keeps_bound_handles (storeEnv []) ⟨some 9, none, some 5⟩ ⟨3, 4, []⟩).1
     (by decide),
   rfl,
   (Initialize_keeps_bound_handles (storeEnv []) ⟨some 9, some 6, none⟩ ⟨3, 4, []⟩).2.1
     (by decide),
   rfl⟩

/-! ## `GetGroupDao`, `FindGroup` and the delegation in `Find` -/

/-- C7 as stated fails: an existing shared accessor does not always come back from
`GetGroupDao` with both handles bound. When the client provider returns nil, the accessor
with no handle bound comes back with its client still nil. -/
theorem GetGroupDao_not_always_bound :
    ¬ (∀ (env : Env) (s : Package) (g : GroupDao), s.groupDao = some g →
        ∃ g' s', GetGroupDao env s = (Except.ok g', s') ∧ g'.pgc ≠ none ∧ g'.log ≠ none) := by
  intro h
  obtain ⟨g', s', hget, hp, _⟩ :=
    h noClientEnv ⟨some ⟨none, none, none⟩, ⟨0, 0, []⟩⟩ ⟨none, none, none⟩ rfl
  have hrun : GetGroupDao noClientEnv ⟨some ⟨none, none, none⟩, ⟨0, 0, []⟩⟩
      = (Except.ok ⟨none, none, some 1⟩, ⟨some ⟨none, none, some 1⟩, ⟨1, 1, []⟩⟩) := rfl
  rw [hrun] at hget
  have hg' : g' = ⟨none, none, some 1⟩ := by
    have := congrArg Prod.fst hget
    simp only [Except.ok.injEq] at this
    exact this.symm
  exact hp (by rw [hg'])

/-- C7, amended: with an existing shared accessor `g`, `GetGroupDao` returns without a fault
the accessor `g'` that `groupDao` points to afterwards, and `Find id` is `FindGroup id` run on
`g'`. When the client or the logger of `g` is nil, `g'` and the provider counts are those
`Initialize` leaves, and both handles of `g'` are bound provided the providers never return
nil; when both are bound on entry, the accessor and the whole package state are unchanged, so
no provider is consulted. -/
theorem Find_delegates_through_GetGroupDao (env : Env) (s : Package) (g : GroupDao) (id : Nat)
    (hg : s.groupDao = some g) :
    ∃ g' s', GetGroupDao env s = (Except.ok g', s') ∧ s'.groupDao = some g' ∧
      Find env id s
        = ((FindGroup env g' id s'.world).1,
           { s' with world := (FindGroup env g' id s'.world).2 }) ∧
      ((g.pgc = none ∨ g.log = none) → (g', s'.world) = Initialize env g s.world) ∧
      (¬ (g.pgc = none ∨ g.log = none) → g' = g ∧ s' = s) ∧
      (ProvidersBound env → g'.pgc ≠ none ∧ g'.log ≠ none) := by
  by_cases hu : g.pgc = none ∨ g.log = none
  · have hget := GetGroupDao_of_unbound env s g hg hu
    refine ⟨_, _, hget, rfl, Find_of_GetGroupDao_ok env s _ _ id hget, fun _ => rfl,
      fun hb => absurd hu hb, fun hp => ?_⟩
    exact ⟨(Initialize_bound env g s.world hp).2, (Initialize_bound env g s.world hp).1⟩
  · have hget := GetGroupDao_of_bound env s g hg hu
    refine ⟨_, _, hget, hg, Find_of_GetGroupDao_ok env s _ _ id hget, fun h => absurd h hu,
      fun _ => ⟨rfl, rfl⟩, fun _ => ?_⟩
    exact ⟨fun h => hu (Or.inl h), fun h => hu (Or.inr h)⟩

theorem Find_delegates_through_GetGroupDao_witness :
    (⟨some ⟨none, none, some 5⟩, ⟨3, 4, []⟩⟩ : Package).groupDao = some ⟨none, none, some 5⟩ ∧
    ∃ g' s', GetGroupDao (storeEnv [⟨1, 7⟩]) ⟨some ⟨none, none, some 5⟩, ⟨3, 4, []⟩⟩
        = (Except.ok g', s') ∧ s'.groupDao = some g' ∧
      Find (storeEnv [⟨1, 7⟩]) 1 ⟨some ⟨none, none, some 5⟩, ⟨3, 4, []⟩⟩
        = ((FindGroup (storeEnv [⟨1, 7⟩]) g' 1 s'.world).1,
           { s' with world := (FindGroup (storeEnv [⟨1, 7⟩]) g' 1 s'.world).2 }) ∧
      (((⟨none, none, some 5⟩ : GroupDao).pgc = none ∨ (⟨none, none, some 5⟩ : GroupDao).log = none)
        → (g', s'.world) = Initialize (storeEnv [⟨1, 7⟩]) ⟨none, none, some 5⟩ ⟨3, 4, []⟩) ∧
      (¬ ((⟨none, none, some 5⟩ : GroupDao).pgc = none ∨ (⟨none, none, some 5⟩ : GroupDao).log = none)
        → g' = ⟨none, none, some 5⟩ ∧ s' = ⟨some ⟨none, none, some 5⟩, ⟨3, 4, []⟩⟩) ∧
      (ProvidersBound (storeEnv [⟨1, 7⟩]) → g'.pgc ≠ none ∧ g'.log ≠ none) :=
  ⟨rfl, Find_delegates_through_GetGroupDao (storeEnv [⟨1, 7⟩])
    ⟨some ⟨none, none, some 5⟩, ⟨3, 4, []⟩⟩ ⟨none, none, some 5⟩ 1 rfl⟩

/-- C8: through an accessor whose client `c` is bound, one call of `FindGroup id` puts one
query to that client, the condition `id = ?` with `id` as its only argument, fetched with
`First`. What `FindGroup` gives back is the outcome of that query (its panic, or the group it
left in the target), and it depends on the client through that query alone: collaborators
that answer this one query alike make `FindGroup` behave alike, whatever they answer to any
other query. The list of issued queries grows by exactly this one entry, and no provider is
consulted. -/
theorem FindGroup_issues_one_query (env : Env) (g : GroupDao) (id : Nat) (w : World) (c : Nat)
    (hc : g.pgc = some c) :
    (∀ v, env.runQuery (some c) { condition := "id = ?", args := [id], fetch := Fetch.First }
        = QueryOutcome.panicked v →
      (FindGroup env g id w).1 = Except.error (Fault.raised v)) ∧
    (∀ t st, env.runQuery (some c) { condition := "id = ?", args := [id], fetch := Fetch.First }
        = QueryOutcome.returned t st →
      (FindGroup env g id w).1 = Except.ok t) ∧
    (∀ env' : Env,
      env'.runQuery (some c) { condition := "id = ?", args := [id], fetch := Fetch.First }
        = env.runQuery (some c) { condition := "id = ?", args := [id], fetch := Fetch.First } →
      FindGroup env' g id w = FindGroup env g id w) ∧
    (FindGroup env g id w).2.queries
      = w.queries ++ [(some c, { condition := "id = ?", args := [id], fetch := Fetch.First })] ∧
    (FindGroup env g id w).2.loggerCalls = w.loggerCalls ∧
    (FindGroup env g id w).2.clientCalls = w.clientCalls := by
  refine ⟨fun v h => ?_, fun t st h => ?_, fun env' h => ?_, ?_⟩
  · exact FindGroup_of_panicked env g id w v (by rw [hc]; exact h)
  · exact FindGroup_of_returned env g id w t st (by rw [hc]; exact h)
  · unfold FindGroup
    simp only [hc, h]
  · rw [FindGroup_world, hc]
    exact ⟨rfl, rfl, rfl⟩

theorem FindGroup_issues_one_query_witness :
    (⟨none, some 2, some 1⟩ : GroupDao).pgc = some 2 ∧
    (FindGroup (storeEnv [⟨1, 7⟩]) ⟨none, some 2, some 1⟩ 1 ⟨1, 1, []⟩).1
      = Except.ok (some ⟨1, 7⟩) ∧
    FindGroup (storeEnv [⟨1, 7⟩, ⟨2, 8⟩]) ⟨none, some 2, some 1⟩ 1 ⟨1, 1, []⟩
      = FindGroup (storeEnv [⟨1, 7⟩]) ⟨none, some 2, some 1⟩ 1 ⟨1, 1, []⟩ ∧
    (FindGroup (storeEnv [⟨1, 7⟩]) ⟨none, some 2, some 1⟩ 1 ⟨1, 1, []⟩).2.queries
      = [(some 2, { condition := "id = ?", args := [1], fetch := Fetch.First })] :=
  ⟨rfl,
   (FindGroup_issues_one_query (storeEnv [⟨1, 7⟩]) ⟨none, some 2, some 1⟩ 1 ⟨1, 1, []⟩ 2
     rfl).2.1 (some ⟨1, 7⟩) none rfl,
   (FindGroup_issues_one_query (storeEnv [⟨1, 7⟩]) ⟨none, some 2, some 1⟩ 1 ⟨1, 1, []⟩ 2
     rfl).2.2.1 (storeEnv [⟨1, 7⟩, ⟨2, 8⟩]) rfl,
   (FindGroup_issues_one_query (storeEnv [⟨1, 7⟩]) ⟨none, some 2, some 1⟩ 1 ⟨1, 1, []⟩ 2
     rfl).2.2.2.1⟩

/-- C10: with an existing shared accessor, and whatever the providers return, `GetGroupDao`
gives the same result, the same package state and the same provider counts as the variant
that runs `Initialize` on every call. -/
theorem GetGroupDao_guard_redundant (env : Env) (s : Package) (g : GroupDao)
    (hg : s.groupDao = some g) :
    GetGroupDao env s = GetGroupDaoUnguarded env s := by
  by_cases hu : g.pgc = none ∨ g.log = none
  · rw [GetGroupDao_of_unbound env s g hg hu]
    simp [GetGroupDaoUnguarded, hg]
  · rw [GetGroupDao_of_bound env s g hg hu]
    have hl : g.log ≠ none := fun h => hu (Or.inr h)
    have hp : g.pgc ≠ none := fun h => hu (Or.inl h)
    cases s with
    | mk gd w =>
      simp only at hg
      subst hg
      simp [GetGroupDaoUnguarded, Initialize_of_bound env g w hl hp]

theorem GetGroupDao_guard_redundant_witness :
    (⟨some ⟨none, some 6, none⟩, ⟨3, 4, []⟩⟩ : Package).groupDao = some ⟨none, some 6, none⟩ ∧
    GetGroupDaoUnguarded (storeEnv []) ⟨some ⟨none, some 6, none⟩, ⟨3, 4, []⟩⟩
      = (Except.ok ⟨none, some 6, some 1⟩, ⟨some ⟨none, some 6, some 1⟩, ⟨4, 4, []⟩⟩) ∧
    GetGroupDao (storeEnv []) ⟨some ⟨none, some 6, none⟩, ⟨3, 4, []⟩⟩
      = GetGroupDaoUnguarded (storeEnv []) ⟨some ⟨none, some 6, none⟩, ⟨3, 4, []⟩⟩ :=
  ⟨rfl, rfl, GetGroupDao_guard_redundant (storeEnv []) ⟨some ⟨none, some 6, none⟩, ⟨3, 4, []⟩⟩
    ⟨none, some 6, none⟩ rfl⟩

end Daos
